import Mathlib

/-!
Shallow embedding of the bank customer-service chatbot backend
(Python sources `security.py`, `customer_data.py`, `intent_classifier.py`,
`response_handler.py`, `conversation.py`, `config.py`), together with
theorems checking the natural-language specification against the embedded
code.

Modelling conventions:
* Python strings are Lean `String`s; character-level work happens on
  `List Char`.
* The regular expressions used by the code are embedded by hand as
  executable functions on `List Char`; where the Python `re` engine's
  backtracking order matters it is spelled out (see `labeledField`).
* ASCII approximation: `str.lower`, `str.upper`, `\w`, `\d` and `\s` are
  modelled on ASCII, which covers all static keyword and customer data of
  the program.
* The only floating-point value in the embedded core is the classifier
  confidence, a quotient of two small naturals; it is modelled in `ℚ`.
* The audit logger only emits log records and never changes session
  state, so it is not modelled.
-/

set_option maxRecDepth 100000

namespace Chatbot

/-- Python `\s` on ASCII: the characters stripped by `str.strip` and
matched by `\s` in the embedded regular expressions. -/
def pyIsSpace (c : Char) : Bool :=
  c == ' ' || c == '\t' || c == '\n' || c == '\r' || c == '\x0b' || c == '\x0c'

/-- Python `str.lower()` (ASCII). -/
def pyLower (s : String) : String := ⟨s.toList.map Char.toLower⟩

/-- Python `str.upper()` (ASCII). -/
def pyUpper (s : String) : String := ⟨s.toList.map Char.toUpper⟩

/-- Python `str.strip()` on a character list. -/
def pyStripList (l : List Char) : List Char :=
  ((l.dropWhile pyIsSpace).reverse.dropWhile pyIsSpace).reverse

/-- Python `str.strip()`. -/
def pyStrip (s : String) : String := ⟨pyStripList s.toList⟩

/-- The list `pat` occurs as a block of `l` starting at position `i`. -/
def occursAt (l pat : List Char) (i : Nat) : Bool :=
  (l.drop i).take pat.length == pat

/-- Python substring containment `pat in l`. -/
def containsSub (l pat : List Char) : Bool :=
  (List.range (l.length + 1)).any (occursAt l pat)

/-- Python substring containment on strings. -/
def strContains (s pat : String) : Bool := containsSub s.toList pat.toList

/-- `InputValidator.validate_name` (security.py): length at least 2 and no
SQL-indicator substring, compared case-insensitively through `upper`. -/
def validate_name (name : String) : Bool :=
  if name.length < 2 then false
  else
    !(["DROP", "DELETE", "--", ";", "/*", "*/", "INSERT", "UPDATE"].any
        (fun p => containsSub (pyUpper name).toList p.toList))

/-- Character-list shape `\d{4}/\d{2}/\d{2}` (ASCII digits). -/
def dobShape : List Char → Bool
  | [y1, y2, y3, y4, s1, m1, m2, s2, d1, d2] =>
      y1.isDigit && y2.isDigit && y3.isDigit && y4.isDigit &&
      s1 == '/' && m1.isDigit && m2.isDigit && s2 == '/' && d1.isDigit && d2.isDigit
  | _ => false

/-- Python `re.match` with a `$`-anchored pattern: the pattern must consume
the whole string, or the whole string except one final newline (Python `$`
also matches just before a trailing `'\n'`). -/
def anchoredMatch (shape : List Char → Bool) (s : String) : Bool :=
  let l := s.toList
  shape l || (l.getLast? == some '\n' && shape l.dropLast)

/-- `InputValidator.validate_dob` (security.py):
`re.match(r'^\d{4}/\d{2}/\d{2}$', dob)`. -/
def validate_dob (dob : String) : Bool := anchoredMatch dobShape dob

/-- Character-list shape `[A-Z]\d{9}` (ASCII). -/
def idShape : List Char → Bool
  | L :: ds => L.isUpper && ds.length == 9 && ds.all Char.isDigit
  | [] => false

/-- `InputValidator.validate_id_number` (security.py):
`re.match(r'^[A-Z]\d{9}$', id_number.upper())`. -/
def validate_id_number (idNumber : String) : Bool :=
  anchoredMatch idShape (pyUpper idNumber)

/-- `InputValidator.sanitize_input` (security.py): `user_input.strip()`. -/
def sanitize_input (s : String) : String := pyStrip s

/-- One record of the static `CUSTOMERS` table (config.py). -/
structure CustomerRecord where
  name : String
  dob : String
  id_number : String
  bank_account : String
  account_balance : String
  loan_balance : String
  opening_branch : String
deriving DecidableEq

/-- The single customer of config.py. -/
def tonyStark : CustomerRecord :=
  { name := "Tony Stark"
    dob := "1996/09/10"
    id_number := "A234763849"
    bank_account := "6102394256679291"
    account_balance := "TWD 2,500,394"
    loan_balance := "TWD 19,243,225"
    opening_branch := "Taipei First Main Branch" }

/-- The static customer table `CUSTOMERS` (config.py), keyed by identifier. -/
def CUSTOMERS : List (String × CustomerRecord) := [("A234763849", tonyStark)]

/-- Python `id_number in CUSTOMERS` plus `CUSTOMERS[id_number]`: exact
(case-sensitive) string key lookup. -/
def lookupCustomer (k : String) : Option CustomerRecord :=
  (CUSTOMERS.find? (fun p => p.1 == k)).map Prod.snd

/-- `CustomerDataManager.verify_customer` (customer_data.py). On failure the
second component is the failure message; on success it is the supplied
customer id. -/
def verify_customer (name dob idNumber : String) : Bool × String :=
  if !validate_name name then (false, "Invalid name format")
  else if !validate_dob dob then (false, "Invalid date of birth format (use YYYY/MM/DD)")
  else if !validate_id_number idNumber then (false, "Invalid ID number format")
  else
    match lookupCustomer idNumber with
    | none => (false, "Customer ID not found")
    | some customer =>
      if pyLower customer.name != pyLower name then (false, "Name does not match")
      else if customer.dob != dob then (false, "Date of birth does not match")
      else if customer.id_number != idNumber then (false, "ID number does not match")
      else (true, idNumber)

/-- Field access `customer.get(field)` for the fixed record schema. -/
def recordField (c : CustomerRecord) (field : String) : Option String :=
  if field == "name" then some c.name
  else if field == "dob" then some c.dob
  else if field == "id_number" then some c.id_number
  else if field == "bank_account" then some c.bank_account
  else if field == "account_balance" then some c.account_balance
  else if field == "loan_balance" then some c.loan_balance
  else if field == "opening_branch" then some c.opening_branch
  else none

/-- `CustomerDataManager.get_customer_info` (customer_data.py). -/
def get_customer_info (customerId field : String) : Option String :=
  match lookupCustomer customerId with
  | none => none
  | some c => recordField c field

/-- Distinct reason tags for `verify` failures, from spec section 4.2. -/
inductive VerifyReason where
  | nameFormat
  | dobFormat
  | idFormat
  | notFound
  | nameMismatch
  | dobMismatch
  | idMismatch
deriving DecidableEq

/-- The user-facing message the code attaches to each reason tag. -/
def reasonMessage : VerifyReason → String
  | .nameFormat => "Invalid name format"
  | .dobFormat => "Invalid date of birth format (use YYYY/MM/DD)"
  | .idFormat => "Invalid ID number format"
  | .notFound => "Customer ID not found"
  | .nameMismatch => "Name does not match"
  | .dobMismatch => "Date of birth does not match"
  | .idMismatch => "ID number does not match"

/-- Verification pipeline written from the words of spec section 4.2: fail
fast in the order name format, dob format, id format, identifier existence,
case-insensitive name match, exact dob match, exact id match; on full match
return the canonical customer identifier. -/
def verifySpec (name dob idNumber : String) : Except VerifyReason String :=
  if !validate_name name then .error .nameFormat
  else if !validate_dob dob then .error .dobFormat
  else if !validate_id_number idNumber then .error .idFormat
  else
    match lookupCustomer idNumber with
    | none => .error .notFound
    | some customer =>
      if pyLower customer.name != pyLower name then .error .nameMismatch
      else if customer.dob != dob then .error .dobMismatch
      else if customer.id_number != idNumber then .error .idMismatch
      else .ok idNumber

/-- The closed intent enumeration (intent_classifier.py). -/
inductive Intent where
  | service_items
  | branch_info
  | loan_process
  | account_opening
  | bank_account
  | account_balance
  | loan_balance
  | opening_branch
  | general_help
  | unknown
deriving DecidableEq

/-- The static keyword table `INTENT_KEYWORDS` (intent_classifier.py);
intents missing from the dict get the empty keyword list. -/
def INTENT_KEYWORDS : Intent → List String
  | .service_items =>
      ["service", "services", "what can you do", "help", "offerings",
       "products", "available services"]
  | .branch_info =>
      ["branch", "branches", "address", "location", "contact", "phone", "hours",
       "where is", "where are", "nearest branch"]
  | .loan_process =>
      ["loan application", "apply for loan", "borrow", "application process",
       "how to apply", "apply for a loan", "loan process", "get a loan"]
  | .account_opening =>
      ["account", "open", "opening", "new account", "register", "sign up",
       "how to open"]
  | .bank_account =>
      ["account number", "account no", "bank account", "my account"]
  | .account_balance =>
      ["balance", "how much", "available", "account balance",
       "remaining balance"]
  | .loan_balance =>
      ["loan balance", "owe", "outstanding", "debt", "loan amount"]
  | .opening_branch =>
      ["opening branch", "where opened", "which branch", "account from",
       "account opened", "opened account", "branch is my account",
       "where was my account opened", "where did i open"]
  | .general_help => []
  | .unknown => []

/-- Iteration order of the `INTENT_KEYWORDS` dict (insertion order). -/
def keywordIntents : List Intent :=
  [.service_items, .branch_info, .loan_process, .account_opening,
   .bank_account, .account_balance, .loan_balance, .opening_branch]

/-- Python `\w` on ASCII. -/
def isWordChar (c : Char) : Bool := c.isAlpha || c.isDigit || c == '_'

/-- Position `i` of `l` holds a word character (out of range counts as no). -/
def wordAt (l : List Char) (i : Nat) : Bool :=
  match l.get? i with
  | some c => isWordChar c
  | none => false

/-- Python `\b` holds at position `i` of `l`: the characters on the two
sides of the position differ in word-character status. -/
def boundaryAt (l : List Char) (i : Nat) : Bool :=
  (if i == 0 then false else wordAt l (i - 1)) != wordAt l i

/-- Embedding of `re.search(r'\b' + re.escape(keyword) + r'\b', l)` for the
static keywords (letters and single spaces): the keyword occurs at some
position of `l` with a `\b` boundary on both sides. -/
def wholeWordMatch (l kw : List Char) : Bool :=
  (List.range (l.length + 1)).any
    (fun i => boundaryAt l i && occursAt l kw i && boundaryAt l (i + kw.length))

/-- Helper for Python `len(s.split())`: count maximal non-whitespace runs;
the flag records whether the previous character belonged to a word. -/
def wordCountAux : List Char → Bool → Nat
  | [], _ => 0
  | c :: rest, inWord =>
      if pyIsSpace c then wordCountAux rest false
      else (if inWord then 0 else 1) + wordCountAux rest true

/-- Python `len(s.split())`. -/
def wordCount (l : List Char) : Nat := wordCountAux l false

/-- Score accumulation of the classify loop (intent_classifier.py lines
72-82): each whole-word-matching keyword adds its word count. -/
def keywordScore (kws : List String) (l : List Char) : Nat :=
  kws.foldl
    (fun acc kw => if wholeWordMatch l kw.toList then acc + wordCount kw.toList else acc) 0

/-- Longest matching keyword phrase (by word count) of the classify loop. -/
def keywordMaxLen (kws : List String) (l : List Char) : Nat :=
  kws.foldl
    (fun acc kw => if wholeWordMatch l kw.toList then max acc (wordCount kw.toList) else acc) 0

/-- Python `max(x :: xs, key)`: the first element attaining the maximal
key. Python `max` raises on an empty sequence; the code reaches it only
with a nonempty candidate list, so the `[]` case is a placeholder. -/
def pyMax (key : Intent → Nat) : List Intent → Intent
  | [] => .unknown
  | x :: xs => xs.foldl (fun acc y => if key acc < key y then y else acc) x

/-- The `user_input_lower` character list of `classify`. -/
def lowChars (s : String) : List Char := (pyLower s).toList

/-- The `scores[intent]` entry of `classify`. -/
def scoreOf (i : Intent) (s : String) : Nat := keywordScore (INTENT_KEYWORDS i) (lowChars s)

/-- The `max_keyword_lengths[intent]` entry of `classify`. -/
def maxLenOf (i : Intent) (s : String) : Nat := keywordMaxLen (INTENT_KEYWORDS i) (lowChars s)

/-- The `max(scores.values())` value of `classify`. -/
def topScore (s : String) : Nat := (keywordIntents.map (fun i => scoreOf i s)).foldl max 0

/-- The candidate list `[intent for intent, score in scores.items() if score == max_score]`. -/
def candidateIntents (s : String) : List Intent :=
  keywordIntents.filter (fun i => scoreOf i s == topScore s)

/-- The `best_intent = max(candidates, key=...)` selection of `classify`. -/
def bestIntent (s : String) : Intent :=
  pyMax (fun i => maxLenOf i s) (candidateIntents s)

/-- `IntentClassifier.classify` (intent_classifier.py). The confidence is
the Python float `score / len(words)` modelled in `ℚ`. -/
def classify (userInput : String) : Intent × ℚ :=
  if topScore userInput == 0 then (.unknown, 0)
  else
    (bestIntent userInput,
     (scoreOf (bestIntent userInput) userInput : ℚ) / (wordCount (lowChars userInput) : ℚ))

/-- `IntentClassifier.is_sensitive_query` (intent_classifier.py). -/
def is_sensitive_query (i : Intent) : Bool :=
  i == .bank_account || i == .account_balance || i == .loan_balance || i == .opening_branch

/-- The `FORBIDDEN_KEYWORDS` list (security.py). -/
def FORBIDDEN_KEYWORDS : List String :=
  ["password", "pwd", "pin", "secret", "api_key", "token"]

/-- `SecurityValidator.contains_sensitive_data` (security.py): some
forbidden keyword occurs as a case-insensitive substring. -/
def contains_sensitive_data (text : String) : Bool :=
  FORBIDDEN_KEYWORDS.any (fun k => containsSub (pyLower text).toList k.toList)

/-- `SecurityValidator.validate_response` (security.py). -/
def validate_response (response : String) : Bool × Option String :=
  if contains_sensitive_data response then
    (false, some "Response contains forbidden sensitive information")
  else (true, none)

/-- `SERVICE_ITEMS` (config.py). -/
def SERVICE_ITEMS : List String :=
  ["24/7 Customer Support", "Account Management", "Loan Services",
   "Investment Advisory", "Credit Card Services", "Mobile Banking"]

/-- One branch entry of `BRANCHES` (config.py). -/
structure BranchInfo where
  address : String
  phone : String
  hours : String
deriving DecidableEq

/-- `BRANCHES` (config.py), in dict insertion order. -/
def BRANCHES : List (String × BranchInfo) :=
  [("Taipei First Main Branch",
    { address := "No. 1, Dunnan Rd, Taipei", phone := "02-2109-5500",
      hours := "Mon-Fri 9:00-17:00" }),
   ("Taipei Second Branch",
    { address := "No. 88, Songshan Rd, Taipei", phone := "02-2719-7000",
      hours := "Mon-Fri 9:00-17:00" })]

/-- `LOAN_PROCESS` (config.py). -/
def LOAN_PROCESS : List String :=
  ["1. Submit application with required documents",
   "2. Credit assessment and verification",
   "3. Final approval decision",
   "4. Loan disbursement"]

/-- `ACCOUNT_OPENING_PROCESS` (config.py). -/
def ACCOUNT_OPENING_PROCESS : List String :=
  ["1. Visit nearest branch with valid ID",
   "2. Fill out account opening form",
   "3. Provide initial deposit (min TWD 1,000)",
   "4. Activate online banking (optional)",
   "5. Receive debit card in 7-10 business days"]

/-- `ResponseHandler._format_service_items`. -/
def formatServiceItems : String :=
  "Our available services are:\n" ++
    String.intercalate "\n" (SERVICE_ITEMS.map (fun item => "- " ++ item))

/-- `ResponseHandler._format_branch_info`. -/
def formatBranchInfo : String :=
  "Our branches:\n\n" ++
    String.intercalate "\n\n"
      (BRANCHES.map (fun b =>
        "📍 " ++ b.1 ++ "\n   Address: " ++ b.2.address ++ "\n   Phone: " ++ b.2.phone ++
          "\n   Hours: " ++ b.2.hours))

/-- `ResponseHandler._format_loan_process`. -/
def formatLoanProcess : String :=
  "Loan Application Process:\n" ++ String.intercalate "\n" LOAN_PROCESS ++
    "\n\nFor more details, please visit our website or contact your nearest branch."

/-- `ResponseHandler._format_account_opening`. -/
def formatAccountOpening : String :=
  "Account Opening Process:\n" ++ String.intercalate "\n" ACCOUNT_OPENING_PROCESS ++
    "\n\nFor assistance, please visit your nearest branch."

/-- `ResponseHandler._format_general_help`. -/
def formatGeneralHelp : String :=
  "Hello! I\u0027m your bank customer service assistant. I can help you with:\n1. Service items and offerings\n2. Branch locations and contact information\n3. Loan application process\n4. Account opening process\n5. Account information (with verification)\n\nHow can I assist you today?"

/-- Python f-string rendering of an `Optional[str]` (`None` prints as `"None"`). -/
def pyOptStr : Option String → String
  | some s => s
  | none => "None"

/-- `ResponseHandler._handle_sensitive_query` (response_handler.py). -/
def handleSensitiveQuery (i : Intent) (customerId : String) : String :=
  if i == .bank_account then
    "Your bank account number is: " ++ pyOptStr (get_customer_info customerId "bank_account")
  else if i == .account_balance then
    "Your current account balance is: " ++
      pyOptStr (get_customer_info customerId "account_balance")
  else if i == .loan_balance then
    "Your current loan balance is: " ++ pyOptStr (get_customer_info customerId "loan_balance")
  else if i == .opening_branch then
    "Your account was opened at: " ++ pyOptStr (get_customer_info customerId "opening_branch")
  else "Unable to process your request."

/-- `ResponseHandler._handle_public_query` (response_handler.py); the
argument is optional because `handle_query` can dynamically receive
`None`, which falls through every conditional to the final fallback. -/
def handlePublicQuery : Option Intent → String
  | some .service_items => formatServiceItems
  | some .branch_info => formatBranchInfo
  | some .loan_process => formatLoanProcess
  | some .account_opening => formatAccountOpening
  | some .general_help => formatGeneralHelp
  | _ =>
      "I\u0027m sorry, I didn\u0027t understand your question. I can help you with:\n- Service items available\n- Branch locations and contact information\n- Loan application process\n- Account opening process\n- Account-related information (with verification)"

/-- `ResponseHandler.handle_query` (response_handler.py). -/
def handle_query (oi : Option Intent) (verifiedCustomerId : Option String) : String :=
  match oi with
  | some i =>
    if is_sensitive_query i then
      match verifiedCustomerId with
      | none =>
          "For security reasons, I need to verify your identity first. Please provide your name, date of birth (YYYY/MM/DD), and ID number."
      | some cid => handleSensitiveQuery i cid
    else handlePublicQuery (some i)
  | none => handlePublicQuery none

/-- Length of the whitespace run of `l` starting at position `i`. -/
def wsRun (l : List Char) (i : Nat) : Nat := ((l.drop i).takeWhile pyIsSpace).length

/-- Length of the run of group-admissible characters (`[^,\n]`) of `l`
starting at position `i`. -/
def groupRun (l : List Char) (i : Nat) : Nat :=
  ((l.drop i).takeWhile (fun c => !(c == ',') && !(c == '\n'))).length

/-- Case-insensitive literal match of `pat` (given lowercase) at position `i`. -/
def matchesCI (l pat : List Char) (i : Nat) : Bool :=
  ((l.drop i).take pat.length).map Char.toLower == pat

/-- Python `$` without MULTILINE: end of string, or just before one final
newline. -/
def dollarAt (l : List Char) (q : Nat) : Bool :=
  q == l.length || (q + 1 == l.length && l.get? q == some '\n')

/-- The lookahead `(?=\s*(?:M1|M2|$))` of the labeled-field patterns holds
at position `p`: some prefix of the whitespace run at `p` is followed by
one of the other markers (case-insensitively) or by `$`. -/
def lookaheadOk (l : List Char) (others : List (List Char)) (p : Nat) : Bool :=
  (List.range (wsRun l p + 1)).any
    (fun u => others.any (fun mk => matchesCI l mk (p + u)) || dollarAt l (p + u))

/-- Lazy-group search at fixed group start `k0`: the least capture length
`g ≥ 1` such that the `g` characters from `k0` are admissible and the
lookahead holds after them (the lazy `([^,\n]+?)` tries short captures
first). -/
def lazyGroup (l : List Char) (others : List (List Char)) (k0 : Nat) : Option Nat :=
  (List.range (groupRun l k0)).findSome?
    (fun t => if lookaheadOk l others (k0 + t + 1) then some (t + 1) else none)

/-- Backtracking after the marker at a candidate start, for the pattern
`marker\s*([^,\n]+?)(?=\s*(?:M1|M2|$))`: the greedy `\s*` tries the
longest whitespace prefix first; returns the capture bounds `(k0, g)`. -/
def matchFrom (l : List Char) (others : List (List Char)) (j0 : Nat) : Option (Nat × Nat) :=
  let W := wsRun l j0
  (List.range (W + 1)).findSome?
    (fun d =>
      let k0 := j0 + (W - d)
      (lazyGroup l others k0).map (fun g => (k0, g)))

/-- Embedding of
`re.search(r'M:\s*([^,\n]+?)(?=\s*(?:M1|M2|$))', input, re.IGNORECASE)`
followed by `.group(1).strip()` (conversation.py lines 108-117): scan
start positions left to right; at the leftmost position where the marker
matches and the rest of the pattern can succeed, return the stripped
capture. -/
def labeledField (l : List Char) (marker : List Char) (others : List (List Char)) :
    Option String :=
  (List.range (l.length + 1)).findSome?
    (fun i =>
      if matchesCI l marker i then
        (matchFrom l others (i + marker.length)).map
          (fun kg => ⟨pyStripList ((l.drop kg.1).take kg.2)⟩)
      else none)

/-- The lowercase text of the `Name:` marker. -/
def nameMarker : List Char := "name:".toList

/-- The lowercase text of the `DOB:` marker. -/
def dobMarker : List Char := "dob:".toList

/-- The lowercase text of the `ID:` marker. -/
def idMarker : List Char := "id:".toList

/-- The fallback `[p.strip() for p in user_input.replace('\n', ',').split(',')]`
(conversation.py line 120). -/
def fallbackParts (l : List Char) : List String :=
  ((l.map (fun c => if c == '\n' then ',' else c)).splitOn ',').map
    (fun p => ⟨pyStripList p⟩)

/-- Python falsiness of an optional parsed field (`None` or `""`). -/
def falsyOpt : Option String → Bool
  | none => true
  | some s => s == ""

/-- Result of the verification-claim parse. -/
structure ParsedClaim where
  name : Option String
  dob : Option String
  idNumber : Option String
deriving DecidableEq

/-- `name = name or parts[k].strip()` for one field: the positional value
fills the field only when the field is still falsy. -/
def pyOrField (x : Option String) (p : String) : Option String :=
  if falsyOpt x then some (pyStrip p) else x

/-- The verification-claim parse of `_handle_verification_input`
(conversation.py lines 104-124): labeled pass, then comma/newline
positional fallback (only applied when at least three parts exist) for
fields the labeled pass left falsy. -/
def parseClaim (input : String) : ParsedClaim :=
  let l := input.toList
  let name0 := labeledField l nameMarker [dobMarker, idMarker]
  let dob0 := labeledField l dobMarker [nameMarker, idMarker]
  let id0 := labeledField l idMarker [nameMarker, dobMarker]
  if falsyOpt name0 || falsyOpt dob0 || falsyOpt id0 then
    let parts := fallbackParts l
    if 3 ≤ parts.length then
      { name := pyOrField name0 (parts.getD 0 "")
        dob := pyOrField dob0 (parts.getD 1 "")
        idNumber := pyOrField id0 (parts.getD 2 "") }
    else { name := name0, dob := dob0, idNumber := id0 }
  else { name := name0, dob := dob0, idNumber := id0 }

/-- One conversation turn; the assistant text is set once computed. -/
structure Turn where
  user : String
  assistant : Option String
deriving DecidableEq

/-- `ConversationSession` state (conversation.py). The opaque session id
and the static collaborators are omitted; `max_verification_attempts` is
the constant `maxVerificationAttempts`. -/
structure Session where
  verifiedCustomerId : Option String
  verificationAttempts : Nat
  pendingIntent : Option Intent
  history : List Turn
deriving DecidableEq

/-- `self.max_verification_attempts = 3`. -/
def maxVerificationAttempts : Nat := 3

/-- A newly constructed `ConversationSession`. -/
def freshSession : Session :=
  { verifiedCustomerId := none, verificationAttempts := 0, pendingIntent := none,
    history := [] }

/-- `ConversationSession.is_verification_pending`. -/
def is_verification_pending (s : Session) : Bool :=
  s.pendingIntent.isSome && s.verifiedCustomerId.isNone

/-- The lockout message (conversation.py lines 95-98 and 157-160). -/
def lockoutMessage : String :=
  "Verification failed. For security reasons, I\u0027m unable to proceed. Please contact our support team or visit a branch."

/-- The missing-fields reprompt (conversation.py lines 128-133). -/
def missingFieldsMessage (remaining : Nat) : String :=
  s!"Please provide all required information. You still need to provide {remaining} more field(s).\nFormat: Name, Date of Birth (YYYY/MM/DD), ID Number\nOr use labeled format: Name: [name] DOB: [date] ID: [id]"

/-- The failed-attempt message (conversation.py lines 150-154). -/
def failedAttemptMessage (reason : String) (remaining : Nat) : String :=
  s!"Verification failed: {reason}\nAttempts remaining: {remaining}\nPlease try again with correct information."

/-- The confirmation banner prefixed to the post-verification response
(conversation.py line 176; the source file carries the literal bytes
U+00E2 U+0153 U+201C before the text). -/
def successBanner : String := "\u00E2\u0153\u201C Identity verified successfully!\n\n"

/-- The unknown-intent reply (conversation.py lines 44-48). -/
def unknownMessage : String :=
  "I\u0027m sorry, I didn\u0027t understand that. Could you please rephrase your question? I can help you with service information, branch details, loan/account processes, or account information."

/-- The verification prompt (conversation.py lines 55-62). -/
def verificationPrompt : String :=
  "For security reasons, I need to verify your identity before providing sensitive information.\n\nPlease provide the following details:\n1. Your full name\n2. Your date of birth (YYYY/MM/DD)\n3. Your ID number"

/-- The downgraded reply after a security-gate rejection (conversation.py line 78). -/
def genericErrorMessage : String :=
  "An error occurred while processing your request. Please try again."

/-- `ConversationSession._handle_verification_input` (conversation.py).
Returns the updated session fields (the history is handled by the caller)
and the response text. -/
def handleVerificationInput (s : Session) (userInput : String) : Session × String :=
  let a := s.verificationAttempts + 1
  if maxVerificationAttempts < a then
    ({ s with verificationAttempts := a, pendingIntent := none }, lockoutMessage)
  else
    let parsed := parseClaim userInput
    if falsyOpt parsed.name || falsyOpt parsed.dob || falsyOpt parsed.idNumber then
      let remaining :=
        (if falsyOpt parsed.name then 1 else 0) + (if falsyOpt parsed.dob then 1 else 0) +
          (if falsyOpt parsed.idNumber then 1 else 0)
      ({ s with verificationAttempts := a }, missingFieldsMessage remaining)
    else
      let vr :=
        verify_customer (parsed.name.getD "") (parsed.dob.getD "") (parsed.idNumber.getD "")
      if !vr.1 then
        let remaining := maxVerificationAttempts - a
        if 0 < remaining then
          ({ s with verificationAttempts := a }, failedAttemptMessage vr.2 remaining)
        else
          ({ s with verificationAttempts := a, pendingIntent := none }, lockoutMessage)
      else
        ({ s with verifiedCustomerId := some vr.2, verificationAttempts := 0,
                  pendingIntent := none },
         successBanner ++ handle_query s.pendingIntent (some vr.2))

/-- `self.conversation_history[-1]["assistant"] = response`. -/
def setLastAssistant (ts : List Turn) (r : String) : List Turn :=
  match ts.getLast? with
  | none => ts
  | some t => ts.dropLast ++ [{ t with assistant := some r }]

/-- Result of one `process_message` call. `validateRan` records whether
the call executed the security-gate check of conversation.py line 76 on
the outgoing text. -/
structure StepResult where
  session : Session
  response : String
  validateRan : Bool
deriving DecidableEq

/-- `ConversationSession.process_message` (conversation.py). -/
def process_message (s : Session) (userMessage : String) : StepResult :=
  let m := sanitize_input userMessage
  let hist0 := s.history ++ [{ user := m, assistant := none }]
  if s.pendingIntent.isSome && is_verification_pending s then
    let hv := handleVerificationInput s m
    { session := { hv.1 with history := setLastAssistant hist0 hv.2 },
      response := hv.2, validateRan := false }
  else
    let intent := (classify m).1
    if intent == .unknown then
      { session := { s with history := setLastAssistant hist0 unknownMessage },
        response := unknownMessage, validateRan := false }
    else if is_sensitive_query intent && s.verifiedCustomerId.isNone then
      { session := { s with pendingIntent := some intent,
                            history := setLastAssistant hist0 verificationPrompt },
        response := verificationPrompt, validateRan := false }
    else
      let resp0 := handle_query (some intent) s.verifiedCustomerId
      let resp := if (validate_response resp0).1 then resp0 else genericErrorMessage
      { session := { s with history := setLastAssistant hist0 resp },
        response := resp, validateRan := true }

/-- `ConversationSession.get_conversation_history`. -/
def get_conversation_history (s : Session) : List Turn := s.history

/-- `ConversationSession.reset_verification`. -/
def reset_verification (s : Session) : Session :=
  { s with verifiedCustomerId := none, verificationAttempts := 0, pendingIntent := none }

/-- The sensitive query of spec scenarios 2-5. -/
def balanceQuery : String := "What is my account balance?"

/-- The correct verification claim of spec scenario 3 (comma form). -/
def correctClaim : String := "Tony Stark, 1996/09/10, A234763849"

/-- The labeled form of the correct claim (spec scenario 6). -/
def labeledClaim : String := "Name: Tony Stark DOB: 1996/09/10 ID: A234763849"

/-- The wrong verification claim of spec scenarios 4-5. -/
def wrongClaim : String := "John Doe, 1990/01/01, B123456789"

/-- Step 1 of the verification scenarios: fresh session, sensitive query. -/
def okStep1 : StepResult := process_message freshSession balanceQuery

/-- Step 2 of the success scenario: the correct claim. -/
def okStep2 : StepResult := process_message okStep1.session correctClaim

/-- Step 3 of the success scenario: a repeated sensitive query. -/
def okStep3 : StepResult := process_message okStep2.session balanceQuery

/-- Step 2 of the lockout scenario: first wrong attempt. -/
def koStep2 : StepResult := process_message okStep1.session wrongClaim

/-- Step 3 of the lockout scenario: second wrong attempt. -/
def koStep3 : StepResult := process_message koStep2.session wrongClaim

/-- Step 4 of the lockout scenario: third wrong attempt. -/
def koStep4 : StepResult := process_message koStep3.session wrongClaim

/-- Step 5 of the lockout scenario: the message after the three wrong attempts. -/
def koStep5 : StepResult := process_message koStep4.session wrongClaim

/-- An incomplete verification attempt (a name with no dob or id). -/
def partialClaim : String := "Tony Stark"

/-- Step 2 of the missing-fields scenario. -/
def icStep2 : StepResult := process_message okStep1.session partialClaim

/-- Step 3 of the missing-fields scenario. -/
def icStep3 : StepResult := process_message icStep2.session partialClaim

/-- Step 4 of the missing-fields scenario. -/
def icStep4 : StepResult := process_message icStep3.session partialClaim

/-- Step 5 of the missing-fields scenario: a correct claim after three
charged missing-field attempts. -/
def icStep5 : StepResult := process_message icStep4.session correctClaim

/-- Restarted flow after lockout: a new sensitive query. -/
def restartStep5 : StepResult := process_message koStep4.session balanceQuery

/-- Restarted flow after lockout: the correct claim. -/
def restartStep6 : StepResult := process_message restartStep5.session correctClaim

/-- Spec-side score (spec section 4.1): the sum of the word counts of the
keyword phrases of the intent that match the lowered text as whole-word
substrings. -/
def specScore (i : Intent) (s : String) : Nat :=
  (((INTENT_KEYWORDS i).filter (fun kw => wholeWordMatch (lowChars s) kw.toList)).map
      (fun kw => wordCount kw.toList)).sum

/-- Spec-side word count of the longest matching keyword phrase of the
intent (spec section 4.1 tie-break). -/
def specMaxLen (i : Intent) (s : String) : Nat :=
  (((INTENT_KEYWORDS i).filter (fun kw => wholeWordMatch (lowChars s) kw.toList)).map
      (fun kw => wordCount kw.toList)).foldr max 0

/-- The condition under which `process_message` reaches the security-gate
check of conversation.py line 76: not in the verification flow, intent
known, and not an unverified sensitive query. -/
def reachesGate (s : Session) (userMessage : String) : Bool :=
  let m := sanitize_input userMessage
  !(s.pendingIntent.isSome && is_verification_pending s) &&
    !((classify m).1 == Intent.unknown) &&
    !(is_sensitive_query (classify m).1 && s.verifiedCustomerId.isNone)

/-- Unfolding of `classify` off the all-zero branch. -/
theorem classify_pos (s : String) (h : topScore s ≠ 0) :
    classify s =
      (bestIntent s, (scoreOf (bestIntent s) s : ℚ) / (wordCount (lowChars s) : ℚ)) := by
  unfold classify
  rw [if_neg (by simpa using h)]

/-- The seed of a `foldl max` is a lower bound of the result. -/
theorem foldl_max_le_self (l : List Nat) (a : Nat) : a ≤ l.foldl max a := by
  induction l generalizing a with
  | nil => simp
  | cons x xs ih => exact le_trans (le_max_left a x) (ih (max a x))

/-- Every member of the list is a lower bound of its `foldl max`. -/
theorem le_foldl_max (l : List Nat) (a x : Nat) (hx : x ∈ l) : x ≤ l.foldl max a := by
  induction l generalizing a with
  | nil => cases hx
  | cons y ys ih =>
      simp only [List.foldl_cons]
      rcases List.mem_cons.mp hx with rfl | h
      · exact le_trans (le_max_right a x) (foldl_max_le_self ys (max a x))
      · exact ih (max a y) h

/-- A `foldl max` is the seed or one of the members. -/
theorem foldl_max_mem (l : List Nat) (a : Nat) : l.foldl max a = a ∨ l.foldl max a ∈ l := by
  induction l generalizing a with
  | nil => left; rfl
  | cons x xs ih =>
      rcases ih (max a x) with h | h
      · rcases max_choice a x with hm | hm
        · left; simpa [hm] using h
        · right; simp only [List.foldl_cons]; rw [h, hm]; exact List.mem_cons_self x xs
      · right; exact List.mem_cons_of_mem x h

/-- A `foldl max 0` is zero exactly when every member is zero. -/
theorem foldl_max_zero (l : List Nat) : l.foldl max 0 = 0 ↔ ∀ x ∈ l, x = 0 := by
  constructor
  · intro h x hx
    have := le_foldl_max l 0 x hx
    omega
  · intro h
    rcases foldl_max_mem l 0 with h0 | hm
    · exact h0
    · exact h _ hm

/-- The Python `max(key=...)` fold stays inside the candidate pool. -/
theorem pyMaxFold_mem (key : Intent → Nat) (xs : List Intent) (acc : Intent) :
    xs.foldl (fun a y => if key a < key y then y else a) acc ∈ acc :: xs := by
  induction xs generalizing acc with
  | nil => simp
  | cons z zs ih =>
      simp only [List.foldl_cons]
      by_cases h : key acc < key z
      · rw [if_pos h]
        exact List.mem_cons_of_mem acc (ih z)
      · rw [if_neg h]
        rcases List.mem_cons.mp (ih acc) with h1 | h1
        · rw [h1]; exact List.mem_cons_self acc (z :: zs)
        · exact List.mem_cons_of_mem _ (List.mem_cons_of_mem _ h1)

/-- The Python `max(key=...)` fold maximises the key over seed and pool. -/
theorem pyMaxFold_le (key : Intent → Nat) (xs : List Intent) (acc : Intent) :
    key acc ≤ key (xs.foldl (fun a y => if key a < key y then y else a) acc) ∧
      ∀ y ∈ xs, key y ≤ key (xs.foldl (fun a y => if key a < key y then y else a) acc) := by
  induction xs generalizing acc with
  | nil => simp
  | cons z zs ih =>
      simp only [List.foldl_cons]
      by_cases h : key acc < key z
      · rw [if_pos h]
        refine ⟨le_trans (le_of_lt h) (ih z).1, ?_⟩
        intro y hy
        rcases List.mem_cons.mp hy with rfl | hm
        · exact (ih y).1
        · exact (ih z).2 y hm
      · rw [if_neg h]
        refine ⟨(ih acc).1, ?_⟩
        intro y hy
        rcases List.mem_cons.mp hy with rfl | hm
        · exact le_trans (le_of_not_lt h) (ih acc).1
        · exact (ih acc).2 y hm

/-- `pyMax` returns a member of any nonempty list. -/
theorem pyMax_mem (key : Intent → Nat) (xs : List Intent) (h : xs ≠ []) :
    pyMax key xs ∈ xs := by
  cases xs with
  | nil => exact absurd rfl h
  | cons x ys => simpa [pyMax] using pyMaxFold_mem key ys x

/-- `pyMax` maximises the key over any nonempty list. -/
theorem pyMax_maximal (key : Intent → Nat) (xs : List Intent) (y : Intent) (hy : y ∈ xs) :
    key y ≤ key (pyMax key xs) := by
  cases xs with
  | nil => cases hy
  | cons x ys =>
      rcases List.mem_cons.mp hy with rfl | hm
      · simpa [pyMax] using (pyMaxFold_le key ys y).1
      · simpa [pyMax] using (pyMaxFold_le key ys x).2 y hm

/-- The score fold of the classify loop computes the filtered sum of the
matching keyword word counts. -/
theorem keywordScore_foldl (kws : List String) (l : List Char) (a : Nat) :
    kws.foldl
        (fun acc kw => if wholeWordMatch l kw.toList then acc + wordCount kw.toList else acc)
        a =
      a + ((kws.filter (fun kw => wholeWordMatch l kw.toList)).map
            (fun kw => wordCount kw.toList)).sum := by
  induction kws generalizing a with
  | nil => simp
  | cons kw rest ih =>
      cases h : wholeWordMatch l kw.toList <;>
        simp only [List.foldl_cons, List.filter_cons, h, if_true, if_false,
          Bool.false_eq_true, Bool.true_eq_false, List.map_cons, List.sum_cons, ih] <;>
        omega

/-- The max-length fold of the classify loop computes the maximum of the
matching keyword word counts. -/
theorem keywordMaxLen_foldl (kws : List String) (l : List Char) (a : Nat) :
    kws.foldl
        (fun acc kw =>
          if wholeWordMatch l kw.toList then max acc (wordCount kw.toList) else acc)
        a =
      max a (((kws.filter (fun kw => wholeWordMatch l kw.toList)).map
              (fun kw => wordCount kw.toList)).foldr max 0) := by
  induction kws generalizing a with
  | nil => simp
  | cons kw rest ih =>
      cases h : wholeWordMatch l kw.toList <;>
        simp only [List.foldl_cons, List.filter_cons, h, if_true, if_false,
          Bool.false_eq_true, Bool.true_eq_false, List.map_cons, List.foldr_cons, ih] <;>
        omega

/-- The loop score of `classify` agrees with the spec-side score. -/
theorem scoreOf_eq_spec (i : Intent) (s : String) : scoreOf i s = specScore i s := by
  have h := keywordScore_foldl (INTENT_KEYWORDS i) (lowChars s) 0
  simpa [scoreOf, keywordScore, specScore] using h

/-- The loop max-length of `classify` agrees with the spec-side value. -/
theorem maxLenOf_eq_spec (i : Intent) (s : String) : maxLenOf i s = specMaxLen i s := by
  have h := keywordMaxLen_foldl (INTENT_KEYWORDS i) (lowChars s) 0
  simpa [maxLenOf, keywordMaxLen, specMaxLen] using h

/-- A nonzero `topScore` is attained by some keyword intent. -/
theorem topScore_attained (s : String) (h : topScore s ≠ 0) :
    ∃ i, i ∈ keywordIntents ∧ scoreOf i s = topScore s := by
  rcases foldl_max_mem (keywordIntents.map (fun i => scoreOf i s)) 0 with h0 | hm
  · exact absurd h0 h
  · rcases List.mem_map.mp hm with ⟨i, hi, hie⟩
    exact ⟨i, hi, hie⟩

/-- Every keyword intent scores at most `topScore`. -/
theorem scoreOf_le_topScore (s : String) (i : Intent) (hi : i ∈ keywordIntents) :
    scoreOf i s ≤ topScore s :=
  le_foldl_max _ 0 _ (List.mem_map_of_mem _ hi)

/-- `topScore` vanishes exactly when every keyword intent scores zero. -/
theorem topScore_eq_zero_iff (s : String) :
    topScore s = 0 ↔ ∀ i ∈ keywordIntents, scoreOf i s = 0 := by
  constructor
  · intro h i hi
    have h1 := scoreOf_le_topScore s i hi
    omega
  · intro h
    exact (foldl_max_zero _).2 (fun x hx => by
      rcases List.mem_map.mp hx with ⟨i, hi, rfl⟩
      exact h i hi)

/-- Indexing agrees with the head of the dropped suffix. -/
theorem get?_eq_drop_head (l : List Char) (i : Nat) : l.get? i = (l.drop i).head? := by
  induction l generalizing i with
  | nil => simp
  | cons c cs ih => cases i <;> simp [ih]

/-- An occurrence of a nonempty pattern pins down the character of `l` at
the occurrence position. -/
theorem occursAt_head (l pat : List Char) (i : Nat) (h : occursAt l pat i = true)
    (hne : pat ≠ []) : l.get? i = pat.head? := by
  have he : (l.drop i).take pat.length = pat := eq_of_beq h
  cases pat with
  | nil => exact absurd rfl hne
  | cons c cs =>
      rw [get?_eq_drop_head]
      cases hd : l.drop i with
      | nil => rw [hd] at he; simp at he
      | cons a as =>
          rw [hd] at he
          simp only [List.length_cons, List.take_succ_cons, List.cons.injEq] at he
          simp [he.1]

/-- A whole-word keyword match with a non-space head yields a non-space
character inside the text. -/
theorem wholeWordMatch_nonspace (l kw : List Char) (h : wholeWordMatch l kw = true)
    (hne : kw ≠ []) (hns : pyIsSpace (kw.headD ' ') = false) :
    ∃ c ∈ l, pyIsSpace c = false := by
  unfold wholeWordMatch at h
  rcases List.any_eq_true.mp h with ⟨i, _, hcond⟩
  simp only [Bool.and_eq_true] at hcond
  have hocc : occursAt l kw i = true := hcond.1.2
  have hhead := occursAt_head l kw i hocc hne
  cases kw with
  | nil => exact absurd rfl hne
  | cons c cs =>
      have hc : l.get? i = some c := by simpa using hhead
      exact ⟨c, List.get?_mem hc, by simpa using hns⟩

/-- A list with a non-space character has a positive Python word count. -/
theorem wordCount_pos (l : List Char) (h : ∃ c ∈ l, pyIsSpace c = false) :
    0 < wordCountAux l false := by
  induction l with
  | nil =>
      rcases h with ⟨c, hc, _⟩
      cases hc
  | cons c cs ih =>
      cases hc : pyIsSpace c
      · simp only [wordCountAux, hc, Bool.false_eq_true, if_false]
        omega
      · rcases h with ⟨d, hd, hdn⟩
        rcases List.mem_cons.mp hd with rfl | hm
        · rw [hc] at hdn; cases hdn
        · simpa [wordCountAux, hc] using ih ⟨d, hm, hdn⟩

/-- ASCII lowering fixes whitespace characters. -/
theorem toLower_space (c : Char) (h : pyIsSpace c = true) : Char.toLower c = c := by
  unfold pyIsSpace at h
  simp only [Bool.or_eq_true, beq_iff_eq] at h
  rcases h with ((((rfl | rfl) | rfl) | rfl) | rfl) | rfl <;> decide

/-- Lowering an all-whitespace string keeps it all-whitespace. -/
theorem lowChars_space (s : String) (h : s.toList.all pyIsSpace = true) :
    (lowChars s).all pyIsSpace = true := by
  rw [List.all_eq_true] at h ⊢
  intro c hc
  rcases List.mem_map.mp hc with ⟨d, hd, rfl⟩
  rw [toLower_space d (h d hd)]
  exact h d hd

/-- Every keyword of the static table is nonempty and starts with a
non-space character. -/
theorem keywords_head_nonspace :
    ∀ i ∈ keywordIntents, ∀ kw ∈ INTENT_KEYWORDS i,
      kw.toList ≠ [] ∧ pyIsSpace (kw.toList.headD ' ') = false := by decide

/-- A nonzero spec-side score exhibits a matching keyword. -/
theorem specScore_ne_zero (i : Intent) (s : String) (h : specScore i s ≠ 0) :
    ∃ kw ∈ INTENT_KEYWORDS i, wholeWordMatch (lowChars s) kw.toList = true := by
  unfold specScore at h
  by_contra hno
  push_neg at hno
  simp only [Bool.not_eq_true] at hno
  have hnil : (INTENT_KEYWORDS i).filter
      (fun kw => wholeWordMatch (lowChars s) kw.toList) = [] := by
    rw [List.filter_eq_nil]
    intro a ha hc
    rw [hno a ha] at hc
    cases hc
  rw [hnil] at h
  simp at h

/-- C4: for every input text, `classify` scores each intent as the sum of
word counts of that intent's keyword phrases matching as case-insensitive
whole-word substrings; if every intent scores zero it returns
`(unknown, 0.0)`; otherwise it returns an intent of maximal score whose
longest matching keyword phrase (by word count) is maximal among the
max-score intents, with confidence the winning score divided by the word
count of the input. -/
theorem C4_classify_spec (s : String) :
    ((∀ i ∈ keywordIntents, specScore i s = 0) → classify s = (.unknown, 0)) ∧
    ((∃ i ∈ keywordIntents, specScore i s ≠ 0) →
      (classify s).1 ∈ keywordIntents ∧
      (∀ j ∈ keywordIntents, specScore j s ≤ specScore (classify s).1 s) ∧
      (∀ j ∈ keywordIntents, specScore j s = specScore (classify s).1 s →
        specMaxLen j s ≤ specMaxLen (classify s).1 s) ∧
      (classify s).2 = (specScore (classify s).1 s : ℚ) / (wordCount (lowChars s) : ℚ)) := by
  constructor
  · intro h
    have hts : topScore s = 0 :=
      (topScore_eq_zero_iff s).2 (fun i hi => by rw [scoreOf_eq_spec]; exact h i hi)
    simp [classify, hts]
  · rintro ⟨i, hi, hne⟩
    have hne2 : scoreOf i s ≠ 0 := by rw [scoreOf_eq_spec]; exact hne
    have hts : topScore s ≠ 0 := fun h0 => hne2 ((topScore_eq_zero_iff s).1 h0 i hi)
    rcases topScore_attained s hts with ⟨j0, hj0, hj0s⟩
    have hj0mem : j0 ∈ candidateIntents s := by
      unfold candidateIntents
      rw [List.mem_filter]
      exact ⟨hj0, by simp [hj0s]⟩
    have hcne : candidateIntents s ≠ [] := by
      intro hnil
      rw [hnil] at hj0mem
      cases hj0mem
    have hbestmem : bestIntent s ∈ candidateIntents s := pyMax_mem _ _ hcne
    have hbf := List.mem_filter.mp hbestmem
    have hbint : bestIntent s ∈ keywordIntents := hbf.1
    have hbsc : scoreOf (bestIntent s) s = topScore s := by
      have h2 := hbf.2
      simpa using h2
    have hcl := classify_pos s hts
    refine ⟨?_, ?_, ?_, ?_⟩
    · rw [hcl]
      exact hbint
    · intro j hj
      rw [hcl]
      show specScore j s ≤ specScore (bestIntent s) s
      rw [← scoreOf_eq_spec, ← scoreOf_eq_spec, hbsc]
      exact scoreOf_le_topScore s j hj
    · intro j hj hjs
      rw [hcl] at hjs ⊢
      have hjs2 : specScore j s = specScore (bestIntent s) s := hjs
      show specMaxLen j s ≤ specMaxLen (bestIntent s) s
      rw [← maxLenOf_eq_spec, ← maxLenOf_eq_spec]
      have hjmem : j ∈ candidateIntents s := by
        unfold candidateIntents
        rw [List.mem_filter]
        refine ⟨hj, ?_⟩
        have hsc : scoreOf j s = topScore s := by
          rw [scoreOf_eq_spec, hjs2, ← scoreOf_eq_spec]
          exact hbsc
        simp [hsc]
      exact pyMax_maximal (fun k => maxLenOf k s) (candidateIntents s) j hjmem
    · rw [hcl]
      show (scoreOf (bestIntent s) s : ℚ) / (wordCount (lowChars s) : ℚ) =
        (specScore (bestIntent s) s : ℚ) / (wordCount (lowChars s) : ℚ)
      rw [scoreOf_eq_spec]

/-- Witness for the C4 theorem: a keyword-free input lands in the
`(unknown, 0)` case, and an input with matches selects a keyword intent. -/
theorem C4_classify_spec_witness :
    classify "xyzzy" = (.unknown, 0) ∧
    (classify "available services").1 ∈ keywordIntents :=
  ⟨(C4_classify_spec "xyzzy").1 (by decide),
   ((C4_classify_spec "available services").2 ⟨.account_balance, by decide, by decide⟩).1⟩

/-- C10: `classify` is total on all input strings; for whitespace-only
input (and any input matching no keyword) it returns `(unknown, 0.0)`
before the confidence division is reached, and whenever the division is
reached the lowered input has a positive word count, so the division is
never by zero. -/
theorem C10_classify_total (s : String) :
    (s.toList.all pyIsSpace = true → classify s = (.unknown, 0)) ∧
    (classify s = (.unknown, 0) ∨ 0 < wordCount (lowChars s)) := by
  constructor
  · intro hsp
    by_cases hts : topScore s = 0
    · simp [classify, hts]
    · exfalso
      have hlow := lowChars_space s hsp
      rcases topScore_attained s hts with ⟨i, hi, his⟩
      have hne : specScore i s ≠ 0 := by
        rw [← scoreOf_eq_spec, his]
        exact hts
      rcases specScore_ne_zero i s hne with ⟨kw, hkw, hm⟩
      rcases keywords_head_nonspace i hi kw hkw with ⟨hne2, hns⟩
      rcases wholeWordMatch_nonspace _ _ hm hne2 hns with ⟨c, hc, hcn⟩
      rw [List.all_eq_true] at hlow
      rw [hlow c hc] at hcn
      cases hcn
  · by_cases hts : topScore s = 0
    · left
      simp [classify, hts]
    · right
      rcases topScore_attained s hts with ⟨i, hi, his⟩
      have hne : specScore i s ≠ 0 := by
        rw [← scoreOf_eq_spec, his]
        exact hts
      rcases specScore_ne_zero i s hne with ⟨kw, hkw, hm⟩
      rcases keywords_head_nonspace i hi kw hkw with ⟨hne2, hns⟩
      exact wordCount_pos _ (wholeWordMatch_nonspace _ _ hm hne2 hns)

/-- Witness for the C10 theorem: whitespace-only input returns the unknown
intent with zero confidence. -/
theorem C10_classify_total_witness : classify "   " = (.unknown, 0) :=
  (C10_classify_total "   ").1 (by decide)

/-- C5: `verify` fails fast in the exact order name format, dob format, id
format, identifier existence, case-insensitive name match, exact dob
match, exact id match, each failure carrying a distinct reason; on full
match it returns the canonical customer identifier (a directory key whose
record carries that same id). -/
theorem C5_verify_order (name dob idNumber : String) :
    verify_customer name dob idNumber =
      (match verifySpec name dob idNumber with
       | .ok cid => (true, cid)
       | .error r => (false, reasonMessage r)) ∧
    (∀ r1 r2 : VerifyReason, reasonMessage r1 = reasonMessage r2 → r1 = r2) ∧
    (∀ cid, verifySpec name dob idNumber = .ok cid →
      ∃ c, lookupCustomer cid = some c ∧ c.id_number = cid) := by
  refine ⟨?_, ?_, ?_⟩
  · unfold verify_customer verifySpec
    split_ifs
    · rfl
    · rfl
    · rfl
    · cases hl : lookupCustomer idNumber with
      | none => simp [reasonMessage]
      | some c =>
          by_cases h4 : (pyLower c.name != pyLower name) = true
          · simp [h4, reasonMessage]
          · by_cases h5 : (c.dob != dob) = true
            · simp [h4, h5, reasonMessage]
            · by_cases h6 : (c.id_number != idNumber) = true
              · simp [h4, h5, h6, reasonMessage]
              · simp [h4, h5, h6]
  · intro r1 r2 h
    cases r1 <;> cases r2 <;> first
      | rfl
      | exact absurd h (by decide)
  · intro cid h
    unfold verifySpec at h
    by_cases h1 : (!validate_name name) = true
    · rw [if_pos h1] at h
      exact Except.noConfusion h
    · rw [if_neg h1] at h
      by_cases h2 : (!validate_dob dob) = true
      · rw [if_pos h2] at h
        exact Except.noConfusion h
      · rw [if_neg h2] at h
        by_cases h3 : (!validate_id_number idNumber) = true
        · rw [if_pos h3] at h
          exact Except.noConfusion h
        · rw [if_neg h3] at h
          cases hl : lookupCustomer idNumber with
          | none =>
              simp only [hl] at h
              exact Except.noConfusion h
          | some c =>
              simp only [hl] at h
              by_cases h4 : (pyLower c.name != pyLower name) = true
              · rw [if_pos h4] at h
                exact Except.noConfusion h
              · rw [if_neg h4] at h
                by_cases h5 : (c.dob != dob) = true
                · rw [if_pos h5] at h
                  exact Except.noConfusion h
                · rw [if_neg h5] at h
                  by_cases h6 : (c.id_number != idNumber) = true
                  · rw [if_pos h6] at h
                    exact Except.noConfusion h
                  · rw [if_neg h6] at h
                    have hcid : idNumber = cid := by injection h
                    have hid : c.id_number = idNumber := by simpa using h6
                    refine ⟨c, ?_, ?_⟩
                    · rw [← hcid]
                      exact hl
                    · rw [← hcid]
                      exact hid

/-- Witness for the C5 theorem at the stored customer record. -/
theorem C5_verify_order_witness :
    verify_customer "Tony Stark" "1996/09/10" "A234763849" =
      (match verifySpec "Tony Stark" "1996/09/10" "A234763849" with
       | .ok cid => (true, cid)
       | .error r => (false, reasonMessage r)) ∧
    (∃ c, lookupCustomer "A234763849" = some c ∧ c.id_number = "A234763849") :=
  ⟨(C5_verify_order "Tony Stark" "1996/09/10" "A234763849").1,
   (C5_verify_order "Tony Stark" "1996/09/10" "A234763849").2.2 "A234763849" rfl⟩

/-- C9: an id that differs from the stored identifier only in the case of
its leading letter passes the id-format check (which uppercases before
matching) but fails the case-sensitive directory lookup, so `verify`
returns the not-found reason rather than succeeding or reporting an id
mismatch. -/
theorem C9_lowercase_id_not_found (name dob : String)
    (h1 : validate_name name = true) (h2 : validate_dob dob = true) :
    validate_id_number "a234763849" = true ∧
    pyUpper "a234763849" = "A234763849" ∧
    "a234763849" ≠ "A234763849" ∧
    lookupCustomer "a234763849" = none ∧
    verify_customer name dob "a234763849" = (false, "Customer ID not found") := by
  refine ⟨by decide, by decide, by decide, by decide, ?_⟩
  unfold verify_customer
  rw [if_neg (by simp [h1]), if_neg (by simp [h2]), if_neg (by decide)]
  have hlk : lookupCustomer "a234763849" = none := by decide
  rw [hlk]

/-- Witness for the C9 theorem at the stored customer's name and dob. -/
theorem C9_lowercase_id_not_found_witness :
    verify_customer "Tony Stark" "1996/09/10" "a234763849" =
      (false, "Customer ID not found") :=
  (C9_lowercase_id_not_found "Tony Stark" "1996/09/10" (by decide) (by decide)).2.2.2.2

/-- Setting the assistant text on a freshly appended turn. -/
theorem setLastAssistant_append (ts : List Turn) (u : String) (r : String) :
    setLastAssistant (ts ++ [{ user := u, assistant := none }]) r =
      ts ++ [{ user := u, assistant := some r }] := by
  unfold setLastAssistant
  rw [List.getLast?_concat, List.dropLast_concat]

/-- C8: every `process_message` call appends exactly one turn to the
history, holding the sanitized user text and the final response text, on
every control path (verification input, unknown intent, verification
prompt, and the gated main path). -/
theorem C8_history_one_turn (s : Session) (m : String) :
    (process_message s m).session.history =
      s.history ++
        [{ user := sanitize_input m,
           assistant := some (process_message s m).response }] := by
  simp only [process_message]
  split_ifs <;> simp [setLastAssistant_append]

/-- C1 (amended): the security-gate check of `process_message` runs
exactly on the main query path (`reachesGate`), and when it runs a failing
validation downgrades the outgoing text to the generic error message;
responses produced by the verification-input handler (including the one
generated right after a successful verification), the unknown-intent
fallback and the verification prompt are returned without the check. -/
theorem C1_gate_on_main_path (s : Session) (m : String) :
    (process_message s m).validateRan = reachesGate s m ∧
    ((process_message s m).validateRan = true →
      (validate_response (process_message s m).response).1 = true ∨
      (process_message s m).response = genericErrorMessage) := by
  simp only [process_message, reachesGate]
  by_cases h1 : (s.pendingIntent.isSome && is_verification_pending s) = true
  · simp [h1]
  · by_cases h2 : ((classify (sanitize_input m)).1 == Intent.unknown) = true
    · simp [h1, h2]
    · by_cases h3 :
        (is_sensitive_query (classify (sanitize_input m)).1 &&
          s.verifiedCustomerId.isNone) = true
      · simp [h1, h2, h3]
      · by_cases hv :
          (validate_response
            (handle_query (some (classify (sanitize_input m)).1)
              s.verifiedCustomerId)).1 = true
        · simp [h1, h2, h3, hv]
        · simp [h1, h2, h3, hv]

/-- Witness for the C1 amended theorem on a public query that reaches the
gate. -/
theorem C1_gate_on_main_path_witness :
    (process_message freshSession "What services do you offer?").validateRan =
      reachesGate freshSession "What services do you offer?" ∧
    ((validate_response
        (process_message freshSession "What services do you offer?").response).1 = true ∨
      (process_message freshSession "What services do you offer?").response =
        genericErrorMessage) :=
  ⟨(C1_gate_on_main_path freshSession "What services do you offer?").1,
   (C1_gate_on_main_path freshSession "What services do you offer?").2 (by decide)⟩

/-- C1 counterexample: in the AwaitingVerification state the response
generated immediately after a successful verification (it carries the
success confirmation) is returned without running the security-gate
check. -/
theorem C1_counterexample :
    strContains okStep2.response "Identity verified successfully" = true ∧
    okStep2.session.verifiedCustomerId = some "A234763849" ∧
    okStep2.validateRan = false := by decide

/-- C2: evaluation exhibiting the code bug: after lockout the session is
back to Idle, but the attempt counter is never reset, so a verification
flow restarted from scratch in the same session is locked out on its
first attempt even with the fully correct claim, while a fresh session
succeeds on the same two messages. -/
theorem C2_lockout_not_restartable :
    koStep4.response = lockoutMessage ∧
    koStep4.session.pendingIntent = none ∧
    koStep4.session.verificationAttempts = 3 ∧
    restartStep5.response = verificationPrompt ∧
    restartStep5.session.pendingIntent = some .account_balance ∧
    restartStep6.response = lockoutMessage ∧
    restartStep6.session.verifiedCustomerId = none ∧
    okStep2.session.verifiedCustomerId = some "A234763849" ∧
    strContains okStep2.response "Identity verified successfully" = true := by
  decide

/-- C3 counterexample: after a sensitive query and three wrong
verification attempts, the lockout message already arrived on the third
attempt, and the fourth message is answered with the unknown-intent
fallback, not rejected with the lockout message. -/
theorem C3_counterexample :
    koStep4.response = lockoutMessage ∧
    koStep5.response = unknownMessage ∧
    koStep5.response ≠ lockoutMessage := by decide

/-- C3 (amended): with three consecutive wrong (complete but mismatched)
verification attempts the third attempt already returns the lockout
message and clears the pending intent, so the session is Idle after max
(not max+1) failed attempts and the fourth message is processed as a
fresh message; the requested balance value never appears in any response.
The rejected-outright branch fires instead when three charged attempts
left the session still awaiting (missing-field attempts): then the fourth
message is rejected with the lockout message even if it is a fully
correct claim. -/
theorem C3_lockout_on_third_attempt :
    okStep1.response = verificationPrompt ∧
    koStep2.response = failedAttemptMessage "Customer ID not found" 2 ∧
    koStep3.response = failedAttemptMessage "Customer ID not found" 1 ∧
    koStep4.response = lockoutMessage ∧
    koStep4.session.pendingIntent = none ∧
    koStep4.session.verifiedCustomerId = none ∧
    koStep5.response = unknownMessage ∧
    (strContains okStep1.response "TWD 2,500,394" = false ∧
     strContains koStep2.response "TWD 2,500,394" = false ∧
     strContains koStep3.response "TWD 2,500,394" = false ∧
     strContains koStep4.response "TWD 2,500,394" = false ∧
     strContains koStep5.response "TWD 2,500,394" = false) ∧
    icStep4.session.verificationAttempts = 3 ∧
    icStep4.session.pendingIntent = some .account_balance ∧
    icStep5.response = lockoutMessage ∧
    icStep5.session.pendingIntent = none := by decide

/-- C6: a session awaiting verification that submits the fully correct
claim gets a response with the success confirmation and the literal
stored balance text, and a subsequent sensitive query in the same session
is answered directly without a new verification prompt. -/
theorem C6_verified_flow :
    okStep1.session.pendingIntent = some .account_balance ∧
    is_verification_pending okStep1.session = true ∧
    strContains okStep2.response "Identity verified successfully" = true ∧
    strContains okStep2.response "TWD 2,500,394" = true ∧
    okStep2.session.verifiedCustomerId = some "A234763849" ∧
    okStep3.response = "Your current account balance is: TWD 2,500,394" ∧
    okStep3.response ≠ verificationPrompt ∧
    okStep3.session.pendingIntent = none := by decide

/-- C7: the labeled input parses to the same triple as the comma form and
produces the same `process_message` outcome from the same awaiting state;
in general a non-falsy labeled value always wins per field, and the
positional fallback fills only fields the labeled pass left missing. -/
theorem C7_labeled_positional (input : String) :
    (parseClaim labeledClaim = parseClaim correctClaim ∧
     (process_message okStep1.session labeledClaim).response =
       (process_message okStep1.session correctClaim).response ∧
     (process_message okStep1.session labeledClaim).session.verifiedCustomerId =
       (process_message okStep1.session correctClaim).session.verifiedCustomerId ∧
     (process_message okStep1.session labeledClaim).session.pendingIntent =
       (process_message okStep1.session correctClaim).session.pendingIntent ∧
     (process_message okStep1.session labeledClaim).session.verificationAttempts =
       (process_message okStep1.session correctClaim).session.verificationAttempts) ∧
    ((falsyOpt (labeledField input.toList nameMarker [dobMarker, idMarker]) = false →
       (parseClaim input).name = labeledField input.toList nameMarker [dobMarker, idMarker]) ∧
     (falsyOpt (labeledField input.toList dobMarker [nameMarker, idMarker]) = false →
       (parseClaim input).dob = labeledField input.toList dobMarker [nameMarker, idMarker]) ∧
     (falsyOpt (labeledField input.toList idMarker [nameMarker, dobMarker]) = false →
       (parseClaim input).idNumber = labeledField input.toList idMarker [nameMarker, dobMarker]) ∧
     (falsyOpt (labeledField input.toList nameMarker [dobMarker, idMarker]) = true →
       3 ≤ (fallbackParts input.toList).length →
       (parseClaim input).name = some (pyStrip ((fallbackParts input.toList).getD 0 ""))) ∧
     (falsyOpt (labeledField input.toList dobMarker [nameMarker, idMarker]) = true →
       3 ≤ (fallbackParts input.toList).length →
       (parseClaim input).dob = some (pyStrip ((fallbackParts input.toList).getD 1 ""))) ∧
     (falsyOpt (labeledField input.toList idMarker [nameMarker, dobMarker]) = true →
       3 ≤ (fallbackParts input.toList).length →
       (parseClaim input).idNumber = some (pyStrip ((fallbackParts input.toList).getD 2 "")))) := by
  constructor
  · exact ⟨by decide, by decide, by decide, by decide, by decide⟩
  · refine ⟨?_, ?_, ?_, ?_, ?_, ?_⟩
    · intro h
      have h2 : falsyOpt (labeledField input.data nameMarker [dobMarker, idMarker]) = false := h
      simp only [parseClaim]
      split_ifs
      · simp [pyOrField, h, h2]
      · rfl
      · rfl
    · intro h
      have h2 : falsyOpt (labeledField input.data dobMarker [nameMarker, idMarker]) = false := h
      simp only [parseClaim]
      split_ifs
      · simp [pyOrField, h, h2]
      · rfl
      · rfl
    · intro h
      have h2 : falsyOpt (labeledField input.data idMarker [nameMarker, dobMarker]) = false := h
      simp only [parseClaim]
      split_ifs
      · simp [pyOrField, h, h2]
      · rfl
      · rfl
    · intro h hlen
      have h2 : falsyOpt (labeledField input.data nameMarker [dobMarker, idMarker]) = true := h
      simp only [parseClaim]
      rw [if_pos (by simp [h2]), if_pos hlen]
      simp [pyOrField, h, h2]
    · intro h hlen
      have h2 : falsyOpt (labeledField input.data dobMarker [nameMarker, idMarker]) = true := h
      simp only [parseClaim]
      rw [if_pos (by simp [h2]), if_pos hlen]
      simp [pyOrField, h, h2]
    · intro h hlen
      have h2 : falsyOpt (labeledField input.data idMarker [nameMarker, dobMarker]) = true := h
      simp only [parseClaim]
      rw [if_pos (by simp [h2]), if_pos hlen]
      simp [pyOrField, h, h2]

/-- Witness for the C7 theorem: the labeled input takes the labeled name,
and the comma form takes the first positional part. -/
theorem C7_labeled_positional_witness :
    parseClaim labeledClaim = parseClaim correctClaim ∧
    (parseClaim labeledClaim).name =
      labeledField labeledClaim.toList nameMarker [dobMarker, idMarker] ∧
    (parseClaim correctClaim).name =
      some (pyStrip ((fallbackParts correctClaim.toList).getD 0 "")) :=
  ⟨(C7_labeled_positional "x").1.1,
   (C7_labeled_positional labeledClaim).2.1 (by decide),
   (C7_labeled_positional correctClaim).2.2.2.2.1 (by decide) (by decide)⟩

end Chatbot
